import Mathlib

/-!
Verification of `src/leo2/core/memory/embeddings/minilm_embed.py`.

The script reads three positional arguments — a JSON array of strings, a
model name, and an integer dimension — and prints a single JSON array of
numeric vectors:

* if importing the embedding library fails, it prints
  `[[0.0]*int(sys.argv[3])] * len(json.loads(sys.argv[1]))` and exits 0
  (lines 5-9);
* otherwise it parses `texts`, `model_name` and `dim` (lines 10-12,
  unguarded: a parse failure propagates as an unhandled exception),
  loads the model, encodes the texts, truncates each vector to `v[:dim]`
  with each component coerced by `float`, and prints the result
  (lines 13-18); any exception in that `try` block is caught and the
  zero fallback `[[0.0]*dim]*len(texts)` is printed with exit 0
  (lines 19-21).

The embedding below models Python numbers exactly (as `ℤ`/`ℚ`), list
repetition `[x]*d` and slicing `v[:d]` with Python's semantics for
integer `d` (negative counts repeat zero times; negative slice bounds
count from the end), and the external `sentence_transformers` library as
an environment value injecting each possible behaviour: import failure,
a load-time exception, an encode-time exception, or a successful model.
Modelled from the spec: the external library is not part of this
repository; per the spec's interface section it exposes "load model by
name" and "encode batch of strings to batch of numeric vectors", one
native vector per input text, so a successful model is a function from
a text to its native numeric vector.  `print` is modelled as a
non-failing append to the list of emitted stdout documents, and an
unhandled Python exception terminates the process with exit status 1
and no stdout document.
-/

namespace MinilmEmbed

/-- A Python numeric value as it may appear in a vector returned by the
embedding library: an integer or a (here idealised as exact rational)
floating-point number. -/
inductive PyNum where
  | int (n : ℤ)
  | float (q : ℚ)
deriving DecidableEq

/-- Python's `float(x)` coercion on a numeric value (line 17,
`map(float, v[:dim])`), idealised as exact. -/
def pyFloat : PyNum → ℚ
  | .int n => (n : ℚ)
  | .float q => q

/-- Python's list slice `v[:d]` for an arbitrary integer `d`: for
`0 ≤ d` it keeps the first `d` elements (fewer if the list is shorter);
for `d < 0` the stop index counts from the end, clipped at `0`. -/
def pySlice {α : Type} (d : ℤ) (v : List α) : List α :=
  if 0 ≤ d then v.take d.toNat else v.take ((v.length : ℤ) + d).toNat

/-- Python's `[0.0]*dim` (lines 8 and 20): a list of `dim` zeros, empty
when `dim ≤ 0`. -/
def zeroVec (dim : ℤ) : List ℚ :=
  List.replicate dim.toNat 0

/-- Line 17 applied to one native vector: `list(map(float, v[:dim]))`. -/
def truncFloat (dim : ℤ) (v : List PyNum) : List ℚ :=
  (pySlice dim v).map pyFloat

/-- The behaviour of the external `sentence_transformers` library during
one invocation: the import fails (`ImportError`, line 7), model loading
raises (line 14), `model.encode` raises (line 15), or everything
succeeds and each input text is encoded to its native numeric vector. -/
inductive Env where
  | noLib
  | loadFail
  | encodeFail
  | ok (encode : String → List PyNum)

/-- `true` exactly on the three failure behaviours of the library. -/
def isFailEnv : Env → Bool
  | .ok _ => false
  | _ => true

/-- The observable result of one invocation: the JSON documents written
to standard output (each a JSON array of arrays of numbers), in order,
and the process exit status. -/
structure Outcome where
  stdoutDocs : List (List (List ℚ))
  exitCode : ℕ
deriving DecidableEq

/-- Termination by an unhandled Python exception: nothing on standard
output, exit status 1. -/
def unhandled : Outcome :=
  ⟨[], 1⟩

/-- The whole script, from `sys.argv` to the observable outcome.
`arg1` is the result of `json.loads(sys.argv[1])` restricted to the
spec's input domain (`some texts` for a valid JSON array of strings,
`none` when parsing raises), `modelName` is `sys.argv[2]` (opaque, its
effect is absorbed into `env`), and `arg3` is `int(sys.argv[3])`
(`none` when parsing raises). -/
def run (env : Env) (arg1 : Option (List String)) (modelName : String)
    (arg3 : Option ℤ) : Outcome :=
  match env with
  | .noLib =>
      match arg3 with
      | none => unhandled
      | some dim =>
          match arg1 with
          | none => unhandled
          | some texts =>
              ⟨[List.replicate texts.length (zeroVec dim)], 0⟩
  | envLib =>
      match arg1 with
      | none => unhandled
      | some texts =>
          match arg3 with
          | none => unhandled
          | some dim =>
              match envLib with
              | .ok f => ⟨[texts.map fun t => truncFloat dim (f t)], 0⟩
              | _ => ⟨[List.replicate texts.length (zeroVec dim)], 0⟩

/-- The vector the script outputs for one input text, per library
behaviour: the truncated-and-coerced native vector on success, the zero
vector on every failure path. -/
def outFn (env : Env) (dim : ℤ) : String → List ℚ :=
  match env with
  | .ok f => fun t => truncFloat dim (f t)
  | _ => fun _ => zeroVec dim

/-- The predicate of claim C1 as stated: every vector in every emitted
document has length exactly the dimension argument. -/
def claimLens (o : Outcome) (dim : ℤ) : Bool :=
  o.stdoutDocs.all fun doc => doc.all fun v => (v.length : ℤ) == dim

/-- A successful model whose native vectors have three components,
one of them a Python integer. -/
def okModel : String → List PyNum :=
  fun _ => [PyNum.float 1, PyNum.int 2, PyNum.float 3]

/-- A successful model whose native vectors have a single component. -/
def shortModel : String → List PyNum :=
  fun _ => [PyNum.float 0]

/-- A successful model that returns a zero vector of `dim` components
for every text. -/
def zeroModel (dim : ℤ) : String → List PyNum :=
  fun _ => List.replicate dim.toNat (PyNum.float 0)

lemma length_pySlice_of_nonneg {α : Type} (d : ℤ) (hd : 0 ≤ d)
    (v : List α) : (pySlice d v).length = min d.toNat v.length := by
  simp [pySlice, hd, List.length_take]

lemma map_constant {α β : Type} (l : List α) (b : β) :
    (l.map fun _ => b) = List.replicate l.length b := by
  induction l with
  | nil => rfl
  | cons x xs ih => simp [List.replicate, ih]

/-- Every library-failure behaviour, given parsed arguments, prints the
single zero-fallback document and exits 0 (lines 8-9 and 20-21). -/
lemma run_failure_eq (env : Env) (texts : List String) (mn : String)
    (dim : ℤ) (h : isFailEnv env = true) :
    run env (some texts) mn (some dim) =
      ⟨[List.replicate texts.length (zeroVec dim)], 0⟩ := by
  cases env <;> simp_all [run, isFailEnv]

lemma truncFloat_zeroModel (dim : ℤ) (t : String) :
    truncFloat dim (zeroModel dim t) = zeroVec dim := by
  unfold truncFloat zeroModel zeroVec pySlice
  by_cases hd : 0 ≤ dim
  · simp [hd, List.take_replicate, List.map_replicate, pyFloat]
  · simp [hd, Int.toNat_of_nonpos (le_of_not_le hd)]

/-- A successful model returning `dim`-component zero vectors produces
the very same outcome as the failure fallback. -/
lemma run_zeroModel (texts : List String) (mn : String) (dim : ℤ) :
    run (Env.ok (zeroModel dim)) (some texts) mn (some dim) =
      ⟨[List.replicate texts.length (zeroVec dim)], 0⟩ := by
  simp only [run]
  congr 1
  simp only [truncFloat_zeroModel]
  rw [map_constant]

/-- Claim C1, as stated, is false on the code: with a successful model
whose native vectors have one component and dimension argument 2, the
output's only vector has length 1, not 2 — `v[:dim]` truncates but
never pads. -/
theorem C1_counterexample :
    claimLens (run (Env.ok shortModel) (some ["a"]) "m" (some 2)) 2 = false := by
  decide

/-- Claim C1 (amended): for a nonnegative dimension argument, every
vector of every emitted document has length exactly `dim`, provided on
the success path that the model's native vectors have at least `dim`
components; on the failure paths this holds unconditionally. -/
theorem C1_length_eq_dim (env : Env) (texts : List String) (mn : String)
    (dim : ℤ) (hd : 0 ≤ dim)
    (hn : ∀ f, env = Env.ok f → ∀ t ∈ texts, dim.toNat ≤ (f t).length) :
    claimLens (run env (some texts) mn (some dim)) dim = true := by
  have hcast : ((dim.toNat : ℤ) == dim) = true := by
    simp [Int.toNat_of_nonneg hd]
  cases env with
  | ok f =>
      simp only [run, claimLens, List.all_cons, List.all_nil, Bool.and_true,
        List.all_eq_true]
      intro v hv
      obtain ⟨t, ht, rfl⟩ := List.mem_map.mp hv
      have hlen : (truncFloat dim (f t)).length = dim.toNat := by
        rw [truncFloat, List.length_map, length_pySlice_of_nonneg dim hd,
          min_eq_left (hn f rfl t ht)]
      rw [hlen]
      exact hcast
  | noLib =>
      simp only [run, claimLens, List.all_cons, List.all_nil, Bool.and_true,
        List.all_eq_true]
      intro v hv
      rw [List.eq_of_mem_replicate hv, zeroVec, List.length_replicate]
      exact hcast
  | loadFail =>
      simp only [run, claimLens, List.all_cons, List.all_nil, Bool.and_true,
        List.all_eq_true]
      intro v hv
      rw [List.eq_of_mem_replicate hv, zeroVec, List.length_replicate]
      exact hcast
  | encodeFail =>
      simp only [run, claimLens, List.all_cons, List.all_nil, Bool.and_true,
        List.all_eq_true]
      intro v hv
      rw [List.eq_of_mem_replicate hv, zeroVec, List.length_replicate]
      exact hcast

/-- Witness for C1 at a concrete successful model with three-component
native vectors, one text and dimension 2. -/
theorem C1_witness :
    (0 : ℤ) ≤ 2 ∧
      claimLens (run (Env.ok okModel) (some ["a"]) "m" (some 2)) 2 = true :=
  ⟨by decide,
    C1_length_eq_dim (Env.ok okModel) ["a"] "m" 2 (by decide)
      (fun f hf => by cases hf; intro t ht; simp [okModel])⟩

/-- Claim C2: on every path with parsed arguments (the only paths that
produce output), the script emits exactly one document whose `i`-th
vector is a function of the `i`-th input text alone — so the output
list has the length of the input list and corresponds to it
positionally. -/
theorem C2_output_count_and_positional (env : Env) (texts : List String)
    (mn : String) (dim : ℤ) :
    (run env (some texts) mn (some dim)).stdoutDocs =
        [texts.map (outFn env dim)] ∧
      (texts.map (outFn env dim)).length = texts.length := by
  refine ⟨?_, by simp⟩
  cases env <;> simp [run, outFn, map_constant]

/-- Claim C3: on each of the three failure behaviours of the library
(import failure, load exception, encode exception), with parsed
arguments, the script emits exactly one document of `texts.length`
copies of the `dim`-zero vector and exits with status 0. -/
theorem C3_failure_zero_fallback (env : Env) (texts : List String)
    (mn : String) (dim : ℤ) (h : isFailEnv env = true) :
    run env (some texts) mn (some dim) =
      ⟨[List.replicate texts.length (zeroVec dim)], 0⟩ :=
  run_failure_eq env texts mn dim h

/-- Witness for C3: load failure on two texts with dimension 3 prints
two three-zero vectors and exits 0. -/
theorem C3_witness :
    isFailEnv Env.loadFail = true ∧
      run Env.loadFail (some ["x", "y"]) "m" (some 3) =
        ⟨[[[0, 0, 0], [0, 0, 0]]], 0⟩ :=
  ⟨rfl, C3_failure_zero_fallback Env.loadFail ["x", "y"] "m" 3 rfl⟩

/-- Claim C4, as stated, is false on the code: an invocation whose
first argument is not valid JSON terminates by an unhandled exception
with a non-zero status, so a non-zero exit path does exist. -/
theorem C4_counterexample :
    (run Env.loadFail none "m" (some 4)).exitCode ≠ 0 := by
  decide

/-- Claim C4 (amended): the exit status is 0 on every path whose
arguments parse — that is, on every path that writes output; the only
non-zero termination is the unhandled argument-parsing failure. -/
theorem C4_exit_zero_on_output_paths (env : Env) (texts : List String)
    (mn : String) (dim : ℤ) :
    (run env (some texts) mn (some dim)).exitCode = 0 := by
  cases env <;> rfl

/-- Claim C5: whenever the first argument fails to parse as JSON or the
third fails to parse as an integer, no handler intercepts it — the
script terminates by an unhandled exception (non-zero status) with no
document on standard output, never the zero-vector fallback. -/
theorem C5_parse_failure_unhandled (env : Env) (arg1 : Option (List String))
    (mn : String) (arg3 : Option ℤ) (h : arg1 = none ∨ arg3 = none) :
    run env arg1 mn arg3 = unhandled := by
  cases env <;> obtain h | h := h <;> subst h <;>
    first
      | rfl
      | (cases arg3 <;> rfl)
      | (cases arg1 <;> rfl)

/-- Witness for C5: an unparseable first argument under an available
library yields the unhandled outcome. -/
theorem C5_witness :
    ((none : Option (List String)) = none ∨ (some (4 : ℤ)) = none) ∧
      run Env.loadFail none "m" (some 4) = unhandled :=
  ⟨Or.inl rfl, C5_parse_failure_unhandled Env.loadFail none "m" (some 4) (Or.inl rfl)⟩

/-- Claim C6: on the success path with a nonnegative dimension, the
emitted document's vector for text `t` is exactly the first `dim`
components of the model's native vector for `t`, each coerced by
`float`. -/
theorem C6_success_truncate_coerce (f : String → List PyNum)
    (texts : List String) (mn : String) (dim : ℤ) (hd : 0 ≤ dim) :
    (run (Env.ok f) (some texts) mn (some dim)).stdoutDocs =
      [texts.map fun t => ((f t).take dim.toNat).map pyFloat] := by
  simp [run, truncFloat, pySlice, hd]

/-- Witness for C6: a three-component native vector `[1.0, 2, 3.0]`
truncated to dimension 2 yields `[1.0, 2.0]` (the integer component is
coerced to a float). -/
theorem C6_witness :
    (0 : ℤ) ≤ 2 ∧
      (run (Env.ok okModel) (some ["a"]) "m" (some 2)).stdoutDocs =
        [[[(1 : ℚ), 2]]] := by
  refine ⟨by decide, ?_⟩
  rw [C6_success_truncate_coerce okModel ["a"] "m" 2 (by decide)]
  decide

/-- Claim C7: for the empty input list, every library behaviour emits
exactly the empty JSON array as the single document and exits 0. -/
theorem C7_empty_input_empty_output (env : Env) (mn : String) (dim : ℤ) :
    (run env (some []) mn (some dim)).stdoutDocs = [[]] ∧
      (run env (some []) mn (some dim)).exitCode = 0 := by
  cases env <;> exact ⟨rfl, rfl⟩

/-- Claim C8, as stated, is false on the code: an invocation whose
third argument does not parse as an integer writes no document at all,
so the script does not write its output exactly once on every
invocation. -/
theorem C8_counterexample :
    (run Env.noLib (some ["a"]) "m" none).stdoutDocs.length ≠ 1 := by
  decide

/-- Claim C8 (amended): the script writes exactly one JSON document on
every invocation whose arguments parse, and zero documents otherwise —
in particular it never writes two documents. -/
theorem C8_single_document (env : Env) (arg1 : Option (List String))
    (mn : String) (arg3 : Option ℤ) :
    (run env arg1 mn arg3).stdoutDocs.length =
      if arg1.isSome = true ∧ arg3.isSome = true then 1 else 0 := by
  cases env <;> cases arg1 <;> cases arg3 <;> simp [run, unhandled]

/-- Claim C9: any two failure causes over the same parsed arguments are
observationally identical (same stdout documents, same exit status),
and both coincide with a successful model that returns `dim`-component
zero vectors — the caller cannot tell them apart. -/
theorem C9_failures_indistinguishable (e1 e2 : Env) (texts : List String)
    (mn : String) (dim : ℤ) (h1 : isFailEnv e1 = true)
    (h2 : isFailEnv e2 = true) :
    run e1 (some texts) mn (some dim) = run e2 (some texts) mn (some dim) ∧
      run e1 (some texts) mn (some dim) =
        run (Env.ok (zeroModel dim)) (some texts) mn (some dim) :=
  ⟨(run_failure_eq e1 texts mn dim h1).trans
      (run_failure_eq e2 texts mn dim h2).symm,
    (run_failure_eq e1 texts mn dim h1).trans (run_zeroModel texts mn dim).symm⟩

/-- Witness for C9: import failure and encode failure on one text with
dimension 3 coincide, and coincide with the zero-returning model. -/
theorem C9_witness :
    isFailEnv Env.noLib = true ∧ isFailEnv Env.encodeFail = true ∧
      (run Env.noLib (some ["a"]) "m" (some 3) =
          run Env.encodeFail (some ["a"]) "m" (some 3) ∧
        run Env.noLib (some ["a"]) "m" (some 3) =
          run (Env.ok (zeroModel 3)) (some ["a"]) "m" (some 3)) :=
  ⟨rfl, rfl,
    C9_failures_indistinguishable Env.noLib Env.encodeFail ["a"] "m" 3 rfl rfl⟩

/-- Claim C10: the dimension is never validated — a non-positive
integer dimension is accepted, and on every failure path the output is
`texts.length` copies of the empty vector with exit status 0, because
Python's `[0.0]*dim` repeats zero times for `dim ≤ 0`. -/
theorem C10_nonpositive_dim_empty_vectors (env : Env) (texts : List String)
    (mn : String) (dim : ℤ) (hf : isFailEnv env = true) (hd : dim ≤ 0) :
    run env (some texts) mn (some dim) =
      ⟨[List.replicate texts.length []], 0⟩ := by
  rw [run_failure_eq env texts mn dim hf]
  have hz : zeroVec dim = [] := by
    simp [zeroVec, Int.toNat_of_nonpos hd]
  rw [hz]

/-- Witness for C10: dimension `-3` under import failure with two texts
yields two empty vectors and exit status 0. -/
theorem C10_witness :
    isFailEnv Env.noLib = true ∧ (-3 : ℤ) ≤ 0 ∧
      run Env.noLib (some ["a", "b"]) "m" (some (-3)) = ⟨[[[], []]], 0⟩ :=
  ⟨rfl, by decide,
    C10_nonpositive_dim_empty_vectors Env.noLib ["a", "b"] "m" (-3) rfl (by decide)⟩

end MinilmEmbed
